import Mathlib

/-!
A verification development for the school directory service in `src/app.js`.

The JavaScript runtime values that reach the two handlers are modelled by
`JSValue` (finite numbers as rationals, NaN as a separate constructor).
`validateSchoolData`, `calculateDistance`, the `POST /addSchool` handler
(`addSchool`) and the `GET /listSchools` handler (`listSchools`) are shallow
embeddings of the corresponding functions of `src/app.js`.  Real-valued
trigonometry is over `ℝ`; the store is a list of `School` records.
-/

namespace SchoolApi

/-- A JavaScript runtime value, restricted to the shapes that can reach the
request handlers: `undefined`, `null`, finite numbers (as rationals), `NaN`,
strings and booleans. -/
inductive JSValue where
  | undefined : JSValue
  | null : JSValue
  | nan : JSValue
  | num : ℚ → JSValue
  | str : String → JSValue
  | bool : Bool → JSValue
deriving DecidableEq

/-- JavaScript StrWhiteSpace characters relevant to `parseFloat` (space, tab,
line feed, carriage return). -/
def isWhitespaceChar (c : Char) : Bool :=
  c == ' ' || c == '\t' || c == '\n' || c == '\r'

/-- Numeric value of a list of decimal digit characters. -/
def digitsToNat (ds : List Char) : ℕ :=
  ds.foldl (fun acc c => 10 * acc + (c.toNat - 48)) 0

/-- Longest decimal-literal leading part of a character list: digits, an
optional decimal point and further digits.  Returns `none` when no digit is
consumed, mirroring `parseFloat` producing `NaN`. -/
def parseDecimal (cs : List Char) : Option ℚ :=
  let intPart := cs.takeWhile Char.isDigit
  let rest := cs.dropWhile Char.isDigit
  let fracPart :=
    match rest with
    | '.' :: t => t.takeWhile Char.isDigit
    | _ => []
  if intPart.isEmpty && fracPart.isEmpty then none
  else some (mkRat (digitsToNat intPart * 10 ^ fracPart.length + digitsToNat fracPart) (10 ^ fracPart.length))

/-- JavaScript `parseFloat` on a character list: skip leading whitespace, read
an optional sign, then the longest decimal literal; `none` models `NaN`.
Exponents and `Infinity` are outside the model (no input of interest uses
them). -/
def parseFloatChars (cs : List Char) : Option ℚ :=
  match cs.dropWhile isWhitespaceChar with
  | '-' :: t => (parseDecimal t).map (fun q => -q)
  | '+' :: t => parseDecimal t
  | t => parseDecimal t

/-- JavaScript `parseFloat` on a string. -/
def parseFloatString (s : String) : Option ℚ :=
  parseFloatChars s.data

/-- JavaScript `parseFloat` applied to a value: the value is first converted
to a string (`undefined`, `null`, `NaN` and booleans stringify to text with no
numeric leading part, hence `NaN`, modelled as `none`); a finite number
round-trips through its decimal representation. -/
def JSValue.parseFloat : JSValue → Option ℚ
  | .num q => some q
  | .str s => parseFloatString s
  | _ => none

/-- JavaScript falsiness: `undefined`, `null`, `NaN`, `0`, the empty string
and `false` are falsy. -/
def JSValue.falsy : JSValue → Bool
  | .undefined => true
  | .null => true
  | .nan => true
  | .num q => q == 0
  | .str s => s == ""
  | .bool b => !b

/-- Whether `typeof v === "string"`. -/
def JSValue.isStr : JSValue → Bool
  | .str _ => true
  | _ => false

/-- JavaScript `String.prototype.trim`: remove leading and trailing
whitespace. -/
def jsTrim (s : String) : String :=
  ⟨((s.data.dropWhile isWhitespaceChar).reverse.dropWhile isWhitespaceChar).reverse⟩

/-- JavaScript `v.trim()` for string values (only reached on strings in the
validator). -/
def JSValue.trim : JSValue → String
  | .str s => jsTrim s
  | _ => ""

/-- The underlying string of a string value (only used after the validator
has established the value is a string). -/
def JSValue.asString : JSValue → String
  | .str s => s
  | _ => ""

/-- The numeric value of a number value (only used after the validator has
established the value parses). -/
def JSValue.numVal : JSValue → ℚ
  | .num q => q
  | _ => 0

/-- The raw request fields seen by `validateSchoolData` and the handlers:
`name`, `address`, `latitude`, `longitude`, each an arbitrary runtime value
(absent fields are `undefined`). -/
structure RawInput where
  name : JSValue
  address : JSValue
  latitude : JSValue
  longitude : JSValue
deriving DecidableEq

/-- Embedding of `validateSchoolData` (src/app.js lines 102-136): each of the
four rules pushes its own error string; the collected list is returned. -/
def validateSchoolData (data : RawInput) : List String :=
  (if data.name.falsy = true ∨ data.name.isStr = false ∨ data.name.trim = "" then
    ["Name is required and must be a non-empty string"]
   else []) ++
  (if data.address.falsy = true ∨ data.address.isStr = false ∨ data.address.trim = "" then
    ["Address is required and must be a non-empty string"]
   else []) ++
  (if data.latitude = JSValue.undefined ∨ data.latitude.parseFloat = none then
    ["Latitude is required and must be a valid number"]
   else
    match data.latitude.parseFloat with
    | some lat => if lat < -90 ∨ lat > 90 then ["Latitude must be between -90 and 90 degrees"] else []
    | none => []) ++
  (if data.longitude = JSValue.undefined ∨ data.longitude.parseFloat = none then
    ["Longitude is required and must be a valid number"]
   else
    match data.longitude.parseFloat with
    | some lon => if lon < -180 ∨ lon > 180 then ["Longitude must be between -180 and 180 degrees"] else []
    | none => [])

/-- The `name` rule of `validateSchoolData`, in isolation. -/
def nameErrors (v : JSValue) : List String :=
  if v.falsy = true ∨ v.isStr = false ∨ v.trim = "" then
    ["Name is required and must be a non-empty string"]
  else []

/-- The `address` rule of `validateSchoolData`, in isolation. -/
def addressErrors (v : JSValue) : List String :=
  if v.falsy = true ∨ v.isStr = false ∨ v.trim = "" then
    ["Address is required and must be a non-empty string"]
  else []

/-- The `latitude` rule of `validateSchoolData`, in isolation. -/
def latitudeErrors (v : JSValue) : List String :=
  if v = JSValue.undefined ∨ v.parseFloat = none then
    ["Latitude is required and must be a valid number"]
  else
    match v.parseFloat with
    | some lat => if lat < -90 ∨ lat > 90 then ["Latitude must be between -90 and 90 degrees"] else []
    | none => []

/-- The `longitude` rule of `validateSchoolData`, in isolation. -/
def longitudeErrors (v : JSValue) : List String :=
  if v = JSValue.undefined ∨ v.parseFloat = none then
    ["Longitude is required and must be a valid number"]
  else
    match v.parseFloat with
    | some lon => if lon < -180 ∨ lon > 180 then ["Longitude must be between -180 and 180 degrees"] else []
    | none => []

/-- A stored School record (the `schools` table row). -/
structure School where
  id : ℕ
  name : String
  address : String
  latitude : ℚ
  longitude : ℚ
deriving DecidableEq

/-- The response of the `POST /addSchool` handler: a 400 carrying the
validation error list, or a 201 carrying the new identifier. -/
inductive AddResponse where
  | badRequest : List String → AddResponse
  | created : ℕ → AddResponse
deriving DecidableEq

/-- The coercion at src/app.js lines 146-147: `parseFloat(req.body.latitude)`
is a number on success and `NaN` on failure. -/
def coerceNum (v : JSValue) : JSValue :=
  match v.parseFloat with
  | some q => .num q
  | none => .nan

/-- The `schoolData` object built by the `POST /addSchool` handler
(src/app.js lines 143-148): name and address are passed through, latitude and
longitude are run through `parseFloat`. -/
def addSchoolData (body : RawInput) : RawInput :=
  { name := body.name
    address := body.address
    latitude := coerceNum body.latitude
    longitude := coerceNum body.longitude }

/-- Embedding of the `POST /addSchool` handler (src/app.js lines 141-182):
build `schoolData`, validate it, reject with the error list on failure,
otherwise insert into the store (AUTO_INCREMENT modelled as length + 1) and
answer 201 with the new identifier. -/
def addSchool (body : RawInput) (store : List School) : AddResponse × List School :=
  let schoolData := addSchoolData body
  let validationErrors := validateSchoolData schoolData
  if validationErrors.length > 0 then
    (.badRequest validationErrors, store)
  else
    let id := store.length + 1
    (.created id,
      store ++ [{ id := id
                  name := schoolData.name.asString
                  address := schoolData.address.asString
                  latitude := schoolData.latitude.numVal
                  longitude := schoolData.longitude.numVal }])

/-- JavaScript `Math.atan2 y x`: the angle of the point `(x, y)`, in
`(-pi, pi]`, computed from `arctan` with the usual quadrant corrections. -/
noncomputable def atan2 (y x : ℝ) : ℝ :=
  if 0 < x then Real.arctan (y / x)
  else if x < 0 then
    (if 0 ≤ y then Real.arctan (y / x) + Real.pi else Real.arctan (y / x) - Real.pi)
  else if 0 < y then Real.pi / 2
  else if y < 0 then -(Real.pi / 2)
  else 0

/-- Embedding of `calculateDistance` (src/app.js lines 83-99): the Haversine
formula with Earth radius 6371 km. -/
noncomputable def calculateDistance (lat1 lon1 lat2 lon2 : ℝ) : ℝ :=
  let R : ℝ := 6371
  let dLat := (lat2 - lat1) * Real.pi / 180
  let dLon := (lon2 - lon1) * Real.pi / 180
  let a := Real.sin (dLat / 2) * Real.sin (dLat / 2) +
    Real.cos (lat1 * Real.pi / 180) * Real.cos (lat2 * Real.pi / 180) *
      Real.sin (dLon / 2) * Real.sin (dLon / 2)
  let c := 2 * atan2 (Real.sqrt a) (Real.sqrt (1 - a))
  R * c

/-- Degrees to radians, as written in the specification. -/
noncomputable def radians (x : ℝ) : ℝ :=
  x * Real.pi / 180

/-- The reference Haversine definition, transcribed from the specification
text: R = 6371, dLat and dLon the radian differences,
a = sin²(dLat/2) + cos(radians lat1) · cos(radians lat2) · sin²(dLon/2),
c = 2 · atan2(√a, √(1 − a)), result R · c. -/
noncomputable def haversineSpec (lat1 lon1 lat2 lon2 : ℝ) : ℝ :=
  let R : ℝ := 6371
  let dLat := radians (lat2 - lat1)
  let dLon := radians (lon2 - lon1)
  let a := Real.sin (dLat / 2) ^ 2 +
    Real.cos (radians lat1) * Real.cos (radians lat2) * Real.sin (dLon / 2) ^ 2
  let c := 2 * atan2 (Real.sqrt a) (Real.sqrt (1 - a))
  R * c

/-- The rounding at src/app.js line 221, `parseFloat(distance.toFixed(2))`:
round to the nearest multiple of 1/100, ties to the larger value (`round` in
Mathlib is exactly this half-up convention). -/
noncomputable def round2 (x : ℝ) : ℝ :=
  ((round (100 * x) : ℤ) : ℝ) / 100

/-- A School together with its computed `distance` field, as produced by the
`GET /listSchools` handler before sorting. -/
structure RankedSchool where
  id : ℕ
  name : String
  address : String
  latitude : ℚ
  longitude : ℚ
  distance : ℝ

/-- The map step at src/app.js lines 211-223: spread the school and add the
rounded distance to the query point. -/
noncomputable def toRanked (userLat userLon : ℚ) (s : School) : RankedSchool :=
  { id := s.id
    name := s.name
    address := s.address
    latitude := s.latitude
    longitude := s.longitude
    distance := round2 (calculateDistance (userLat : ℝ) (userLon : ℝ) (s.latitude : ℝ) (s.longitude : ℝ)) }

/-- `schoolsWithDistance` of the `GET /listSchools` handler: every stored
school, in store order, with its distance. -/
noncomputable def schoolsWithDistance (userLat userLon : ℚ) (schools : List School) : List RankedSchool :=
  schools.map (toRanked userLat userLon)

/-- The sort key relation of the comparator at src/app.js line 226,
`(a, b) => a.distance - b.distance`. -/
def distLE (a b : RankedSchool) : Prop :=
  a.distance ≤ b.distance

noncomputable instance : DecidableRel distLE :=
  fun a b => Real.decidableLE a.distance b.distance

instance : IsTotal RankedSchool distLE :=
  ⟨fun a b => le_total a.distance b.distance⟩

instance : IsTrans RankedSchool distLE :=
  ⟨fun _ _ _ h1 h2 => le_trans h1 h2⟩

/-- The sort at src/app.js line 226.  `Array.prototype.sort` is stable and
ascending under this comparator; a stable ascending sort of a list under a
total preorder is unique, and `List.insertionSort` is such a sort. -/
noncomputable def rankSchools (userLat userLon : ℚ) (schools : List School) : List RankedSchool :=
  (schoolsWithDistance userLat userLon schools).insertionSort distLE

/-- The response of the `GET /listSchools` handler: a 400 carrying the single
invalid-coordinates message, or a 200 carrying the count and the sorted
schools. -/
inductive ListResponse where
  | badRequest : String → ListResponse
  | ok : ℕ → List RankedSchool → ListResponse

/-- The single error message of the `GET /listSchools` validation branch
(src/app.js lines 200-205). -/
def invalidCoordMessage : String :=
  "Invalid coordinates provided. Latitude must be between -90 and 90, longitude between -180 and 180"

/-- Embedding of the `GET /listSchools` handler (src/app.js lines 185-240):
parse the query coordinates, reject with one fixed message when either fails
to parse or is out of range, otherwise rank all stored schools and answer
with the count and the list. -/
noncomputable def listSchools (latQ lonQ : JSValue) (store : List School) : ListResponse :=
  match latQ.parseFloat, lonQ.parseFloat with
  | some userLatitude, some userLongitude =>
    if userLatitude < -90 ∨ userLatitude > 90 ∨ userLongitude < -180 ∨ userLongitude > 180 then
      .badRequest invalidCoordMessage
    else
      let ranked := rankSchools userLatitude userLongitude store
      .ok ranked.length ranked
  | _, _ => .badRequest invalidCoordMessage

/-! ### Helper lemmas -/

theorem atan2_zero_one : atan2 0 1 = 0 := by
  unfold atan2
  norm_num [Real.arctan_zero]

theorem atan2_nonneg (y x : ℝ) (hy : 0 ≤ y) : 0 ≤ atan2 y x := by
  unfold atan2
  split_ifs with h1 h2 h3 h4
  · have h := Real.arctan_strictMono.monotone (div_nonneg hy h1.le)
    simpa [Real.arctan_zero] using h
  · have h := Real.neg_pi_div_two_lt_arctan (y / x)
    have hp := Real.pi_pos
    linarith
  · have hp := Real.pi_pos
    linarith
  · linarith
  · exact le_refl 0

theorem calculateDistance_nonneg (lat1 lon1 lat2 lon2 : ℝ) :
    0 ≤ calculateDistance lat1 lon1 lat2 lon2 := by
  simp only [calculateDistance]
  refine mul_nonneg (by norm_num)
    (mul_nonneg (by norm_num) (atan2_nonneg _ _ (Real.sqrt_nonneg _)))

theorem round2_nonneg (x : ℝ) (hx : 0 ≤ x) : 0 ≤ round2 x := by
  unfold round2
  refine div_nonneg ?_ (by norm_num)
  have h : (0 : ℤ) ≤ round (100 * x) := by
    rw [round_eq]
    refine Int.floor_nonneg.mpr ?_
    linarith
  exact_mod_cast h

theorem round2_near (x : ℝ) : |x - round2 x| ≤ 1 / 200 := by
  unfold round2
  have h := abs_sub_round (100 * x)
  have h2 : x - ((round (100 * x) : ℤ) : ℝ) / 100 = (100 * x - round (100 * x)) / 100 := by
    ring
  rw [h2, abs_div, show |(100 : ℝ)| = 100 by norm_num]
  linarith

theorem round2_eq_floor (x : ℝ) : round2 x = ((⌊100 * x + 1 / 2⌋ : ℤ) : ℝ) / 100 := by
  rw [round2, round_eq]

theorem round2_zero : round2 0 = 0 := by
  simp [round2]

theorem haversine_shell {a b : ℝ} (h : a = b) :
    6371 * (2 * atan2 (Real.sqrt a) (Real.sqrt (1 - a))) =
      6371 * (2 * atan2 (Real.sqrt b) (Real.sqrt (1 - b))) := by
  rw [h]

/-! ### Claim theorems: the distance computation -/

/-- C1: the distance computation `calculateDistance` coincides with the
reference Haversine definition transcribed from the specification, for every
pair of coordinate points. -/
theorem calculateDistance_eq_haversineSpec (lat1 lon1 lat2 lon2 : ℝ) :
    calculateDistance lat1 lon1 lat2 lon2 = haversineSpec lat1 lon1 lat2 lon2 := by
  simp only [calculateDistance, haversineSpec, radians]
  exact haversine_shell (by ring)

/-- C3: the computed distance from any point to itself is exactly 0, and it
is still exactly 0 after the 2-decimal rounding applied by the listing
handler. -/
theorem calculateDistance_self (lat lon : ℝ) :
    calculateDistance lat lon lat lon = 0 ∧
      round2 (calculateDistance lat lon lat lon) = 0 := by
  have h0 : calculateDistance lat lon lat lon = 0 := by
    simp only [calculateDistance]
    simp [sub_self, zero_mul, zero_div, Real.sin_zero, mul_zero, add_zero,
      Real.sqrt_zero, sub_zero, Real.sqrt_one, atan2_zero_one]
  exact ⟨h0, by rw [h0, round2_zero]⟩

/-- C4: the distance computation is symmetric in its two coordinate points. -/
theorem calculateDistance_symm (lat1 lon1 lat2 lon2 : ℝ) :
    calculateDistance lat1 lon1 lat2 lon2 = calculateDistance lat2 lon2 lat1 lon1 := by
  simp only [calculateDistance]
  refine haversine_shell ?_
  have e1 : (lat2 - lat1) * Real.pi / 180 / 2 = -((lat1 - lat2) * Real.pi / 180 / 2) := by
    ring
  have e2 : (lon2 - lon1) * Real.pi / 180 / 2 = -((lon1 - lon2) * Real.pi / 180 / 2) := by
    ring
  rw [e1, e2, Real.sin_neg, Real.sin_neg]
  ring

/-! ### Validator helper lemmas -/

theorem validateSchoolData_decomp (data : RawInput) :
    validateSchoolData data =
      nameErrors data.name ++ addressErrors data.address ++
        latitudeErrors data.latitude ++ longitudeErrors data.longitude :=
  rfl

theorem parseFloat_coerceNum (v : JSValue) : (coerceNum v).parseFloat = v.parseFloat := by
  unfold coerceNum
  cases h : v.parseFloat <;> simp [JSValue.parseFloat]

theorem numVal_coerceNum {v : JSValue} {x : ℚ} (h : v.parseFloat = some x) :
    (coerceNum v).numVal = x := by
  unfold coerceNum
  rw [h]
  rfl

theorem latitudeErrors_nil_iff (v : JSValue) :
    latitudeErrors v = [] ↔ ∃ x, v.parseFloat = some x ∧ -90 ≤ x ∧ x ≤ 90 := by
  unfold latitudeErrors
  by_cases h : v = JSValue.undefined ∨ v.parseFloat = none
  · rw [if_pos h]
    constructor
    · intro habs
      exact absurd habs (by simp)
    · rintro ⟨x, hx, -, -⟩
      exfalso
      rcases h with h | h
      · rw [h] at hx
        exact Option.noConfusion hx
      · rw [h] at hx
        exact Option.noConfusion hx
  · rw [if_neg h]
    push_neg at h
    obtain ⟨x, hx⟩ := Option.ne_none_iff_exists'.mp h.2
    simp only [hx]
    split_ifs with hr
    · constructor
      · intro habs
        exact absurd habs (by simp)
      · rintro ⟨x', hx', h1, h2⟩
        exfalso
        rw [Option.some_inj] at hx'
        subst hx'
        rcases hr with hr | hr <;> linarith
    · constructor
      · intro _
        push_neg at hr
        exact ⟨x, rfl, hr.1, hr.2⟩
      · intro _
        rfl

theorem longitudeErrors_nil_iff (v : JSValue) :
    longitudeErrors v = [] ↔ ∃ y, v.parseFloat = some y ∧ -180 ≤ y ∧ y ≤ 180 := by
  unfold longitudeErrors
  by_cases h : v = JSValue.undefined ∨ v.parseFloat = none
  · rw [if_pos h]
    constructor
    · intro habs
      exact absurd habs (by simp)
    · rintro ⟨y, hy, -, -⟩
      exfalso
      rcases h with h | h
      · rw [h] at hy
        exact Option.noConfusion hy
      · rw [h] at hy
        exact Option.noConfusion hy
  · rw [if_neg h]
    push_neg at h
    obtain ⟨y, hy⟩ := Option.ne_none_iff_exists'.mp h.2
    simp only [hy]
    split_ifs with hr
    · constructor
      · intro habs
        exact absurd habs (by simp)
      · rintro ⟨y', hy', h1, h2⟩
        exfalso
        rw [Option.some_inj] at hy'
        subst hy'
        rcases hr with hr | hr <;> linarith
    · constructor
      · intro _
        push_neg at hr
        exact ⟨y, rfl, hr.1, hr.2⟩
      · intro _
        rfl

theorem latitudeErrors_required_iff (v : JSValue) :
    latitudeErrors v = ["Latitude is required and must be a valid number"] ↔
      v.parseFloat = none := by
  unfold latitudeErrors
  by_cases h : v = JSValue.undefined ∨ v.parseFloat = none
  · constructor
    · intro _
      rcases h with h | h
      · rw [h]
        rfl
      · exact h
    · intro _
      rw [if_pos h]
  · rw [if_neg h]
    push_neg at h
    obtain ⟨x, hx⟩ := Option.ne_none_iff_exists'.mp h.2
    simp only [hx]
    split_ifs with hr
    · constructor
      · intro habs
        exact absurd habs (by decide)
      · intro hnone
        exact hnone.elim
    · constructor
      · intro habs
        exact absurd habs (by decide)
      · intro hnone
        exact hnone.elim

theorem longitudeErrors_required_iff (v : JSValue) :
    longitudeErrors v = ["Longitude is required and must be a valid number"] ↔
      v.parseFloat = none := by
  unfold longitudeErrors
  by_cases h : v = JSValue.undefined ∨ v.parseFloat = none
  · constructor
    · intro _
      rcases h with h | h
      · rw [h]
        rfl
      · exact h
    · intro _
      rw [if_pos h]
  · rw [if_neg h]
    push_neg at h
    obtain ⟨y, hy⟩ := Option.ne_none_iff_exists'.mp h.2
    simp only [hy]
    split_ifs with hr
    · constructor
      · intro habs
        exact absurd habs (by decide)
      · intro hnone
        exact hnone.elim
    · constructor
      · intro habs
        exact absurd habs (by decide)
      · intro hnone
        exact hnone.elim

theorem latitudeErrors_out_of_range {x : ℚ} (h : x < -90 ∨ x > 90) :
    latitudeErrors (.num x) = ["Latitude must be between -90 and 90 degrees"] := by
  have hne : ¬(JSValue.num x = JSValue.undefined ∨ (JSValue.num x).parseFloat = none) := by
    simp [JSValue.parseFloat]
  unfold latitudeErrors
  rw [if_neg hne]
  show (if x < -90 ∨ x > 90 then ["Latitude must be between -90 and 90 degrees"] else []) = _
  exact if_pos h

theorem addSchool_badRequest {body : RawInput} (store : List School)
    (h : validateSchoolData (addSchoolData body) ≠ []) :
    addSchool body store = (.badRequest (validateSchoolData (addSchoolData body)), store) := by
  simp only [addSchool]
  rw [if_pos (List.length_pos.mpr h)]

/-! ### Claim theorems: validation and registration -/

/-- C5: the validator evaluates the name, address, latitude and longitude
rules independently and returns the concatenation of their violations;
latitude passes exactly when it parses to a number in [-90, 90]; a
non-parsing latitude gets exactly the required-and-valid-number message (so
never a range error); likewise longitude with [-180, 180]. -/
theorem validateSchoolData_spec (data : RawInput) :
    validateSchoolData data =
      nameErrors data.name ++ addressErrors data.address ++
        latitudeErrors data.latitude ++ longitudeErrors data.longitude ∧
    (latitudeErrors data.latitude = [] ↔
      ∃ x, data.latitude.parseFloat = some x ∧ -90 ≤ x ∧ x ≤ 90) ∧
    (latitudeErrors data.latitude = ["Latitude is required and must be a valid number"] ↔
      data.latitude.parseFloat = none) ∧
    (longitudeErrors data.longitude = [] ↔
      ∃ y, data.longitude.parseFloat = some y ∧ -180 ≤ y ∧ y ≤ 180) ∧
    (longitudeErrors data.longitude = ["Longitude is required and must be a valid number"] ↔
      data.longitude.parseFloat = none) :=
  ⟨rfl, latitudeErrors_nil_iff _, latitudeErrors_required_iff _,
    longitudeErrors_nil_iff _, longitudeErrors_required_iff _⟩

/-- C6: every registration input that fails validation is answered with the
validation error list and the store is left unchanged (no insert happens);
when the latitude parses to an out-of-range value, that list mentions the
latitude range. -/
theorem addSchool_rejects_invalid (body : RawInput) (store : List School)
    (h : validateSchoolData (addSchoolData body) ≠ []) :
    addSchool body store = (.badRequest (validateSchoolData (addSchoolData body)), store) ∧
    (addSchool body store).2 = store ∧
    (∀ x : ℚ, body.latitude.parseFloat = some x → x < -90 ∨ x > 90 →
      "Latitude must be between -90 and 90 degrees" ∈ validateSchoolData (addSchoolData body)) := by
  have h1 := addSchool_badRequest store h
  refine ⟨h1, by rw [h1], ?_⟩
  intro x hx hr
  have hcoe : coerceNum body.latitude = JSValue.num x := by
    unfold coerceNum
    rw [hx]
  have hlat : latitudeErrors (addSchoolData body).latitude =
      ["Latitude must be between -90 and 90 degrees"] := by
    show latitudeErrors (coerceNum body.latitude) = _
    rw [hcoe]
    exact latitudeErrors_out_of_range hr
  rw [validateSchoolData_decomp]
  refine List.mem_append.mpr (Or.inl (List.mem_append.mpr (Or.inr ?_)))
  rw [hlat]
  exact List.mem_singleton_self _

/-- Witness for C6: registering latitude 91 is rejected with the
latitude-range message and the empty store stays empty. -/
theorem addSchool_rejects_invalid_witness :
    addSchool ⟨.str "Test School", .str "1 Test St", .num 91, .num 10⟩ [] =
      (.badRequest ["Latitude must be between -90 and 90 degrees"], []) := by
  have h := addSchool_rejects_invalid
    ⟨.str "Test School", .str "1 Test St", .num 91, .num 10⟩ [] (by decide)
  exact h.1.trans (by decide)

/-- C10 counterexample: the string "12.5abc" does not denote a number, yet
the registration handler silently coerces it (via the longest-numeric-slice
behaviour of `parseFloat`) to 12.5 = 25/2 and stores that value; so numeric
request fields are not parsed by a function that rejects every string that
does not fully denote a number. -/
theorem addSchool_coercion_counterexample :
    JSValue.parseFloat (.str "12.5abc") = some (mkRat 25 2) ∧
    addSchool ⟨.str "Test School", .str "1 Test St", .str "12.5abc", .str "10"⟩ [] =
      (.created 1, [⟨1, "Test School", "1 Test St", mkRat 25 2, 10⟩]) :=
  ⟨by decide, by decide⟩

/-- C10 amended: numeric request fields are parsed by `parseFloat`, which is
total and tagged in the sense that failure is a distinguishable sentinel
(modelled `none`) always caught by the subsequent validation — every
registration either rejects with a non-empty error list and no write, or
stores exactly the successfully parsed in-range coordinates — but a string
is coerced to the number denoted by its longest numeric leading slice, not
rejected. -/
theorem addSchool_parse_tagged (body : RawInput) (store : List School) :
    (validateSchoolData (addSchoolData body) ≠ [] ∧
      addSchool body store = (.badRequest (validateSchoolData (addSchoolData body)), store)) ∨
    (∃ x y, body.latitude.parseFloat = some x ∧ body.longitude.parseFloat = some y ∧
      -90 ≤ x ∧ x ≤ 90 ∧ -180 ≤ y ∧ y ≤ 180 ∧
      addSchool body store = (.created (store.length + 1),
        store ++ [{ id := store.length + 1, name := body.name.asString,
                    address := body.address.asString, latitude := x, longitude := y }])) := by
  by_cases h : validateSchoolData (addSchoolData body) = []
  · right
    have hdec := (validateSchoolData_decomp (addSchoolData body)).symm.trans h
    obtain ⟨h123, h4⟩ := List.append_eq_nil.mp hdec
    obtain ⟨h12, h3⟩ := List.append_eq_nil.mp h123
    have hlat := (latitudeErrors_nil_iff (addSchoolData body).latitude).mp h3
    have hlon := (longitudeErrors_nil_iff (addSchoolData body).longitude).mp h4
    obtain ⟨x, hx, hx1, hx2⟩ := hlat
    obtain ⟨y, hy, hy1, hy2⟩ := hlon
    have hx0 : body.latitude.parseFloat = some x :=
      (parseFloat_coerceNum body.latitude).symm.trans hx
    have hy0 : body.longitude.parseFloat = some y :=
      (parseFloat_coerceNum body.longitude).symm.trans hy
    refine ⟨x, y, hx0, hy0, hx1, hx2, hy1, hy2, ?_⟩
    simp only [addSchool, h]
    rw [if_neg (by simp)]
    have hxv : (addSchoolData body).latitude.numVal = x := numVal_coerceNum hx0
    have hyv : (addSchoolData body).longitude.numVal = y := numVal_coerceNum hy0
    rw [hxv, hyv]
    rfl
  · left
    exact ⟨h, addSchool_badRequest store h⟩

/-! ### Sorting helper lemmas -/

theorem filter_orderedInsert (d : ℝ) (a : RankedSchool) (t : List RankedSchool) :
    (t.orderedInsert distLE a).filter (fun s => decide (s.distance = d)) =
      if a.distance = d then a :: t.filter (fun s => decide (s.distance = d))
      else t.filter (fun s => decide (s.distance = d)) := by
  induction t with
  | nil =>
    by_cases had : a.distance = d <;>
      simp [List.orderedInsert, List.filter_cons, had]
  | cons b t ih =>
    simp only [List.orderedInsert]
    by_cases hab : distLE a b
    · rw [if_pos hab]
      by_cases had : a.distance = d <;> simp [List.filter_cons, had]
    · rw [if_neg hab]
      have hba : b.distance < a.distance := lt_of_not_le hab
      by_cases had : a.distance = d
      · have hbd : ¬b.distance = d := by
          rw [← had]
          exact ne_of_lt hba
        simp [List.filter_cons, hbd, ih, had]
      · simp [List.filter_cons, ih, had]

theorem filter_insertionSort (d : ℝ) (l : List RankedSchool) :
    (l.insertionSort distLE).filter (fun s => decide (s.distance = d)) =
      l.filter (fun s => decide (s.distance = d)) := by
  induction l with
  | nil => rfl
  | cons a l ih =>
    simp only [List.insertionSort]
    rw [filter_orderedInsert]
    by_cases had : a.distance = d <;> simp [List.filter_cons, had, ih]

/-! ### Claim theorems: the listing workflow -/

theorem listSchools_ok_inv {latQ lonQ : JSValue} {store : List School} {x y : ℚ}
    (hx : latQ.parseFloat = some x) (hy : lonQ.parseFloat = some y)
    {c : ℕ} {out : List RankedSchool}
    (h : listSchools latQ lonQ store = .ok c out) :
    out = rankSchools x y store := by
  simp only [listSchools, hx, hy] at h
  by_cases hcond : x < -90 ∨ x > 90 ∨ y < -180 ∨ y > 180
  · rw [if_pos hcond] at h
    exact absurd h (by simp)
  · rw [if_neg hcond] at h
    injection h with h1 h2
    exact h2.symm

/-- C2: every successful listing response is sorted non-decreasing by the
computed distance, and the sub-sequence of records at any fixed distance
equals the corresponding sub-sequence of the store-order input (the sort is
stable). -/
theorem listSchools_sorted_stable (latQ lonQ : JSValue) (store : List School)
    (x y : ℚ) (hx : latQ.parseFloat = some x) (hy : lonQ.parseFloat = some y)
    (c : ℕ) (out : List RankedSchool)
    (h : listSchools latQ lonQ store = .ok c out) (d : ℝ) :
    List.Sorted distLE out ∧
    out.filter (fun s => decide (s.distance = d)) =
      (schoolsWithDistance x y store).filter (fun s => decide (s.distance = d)) := by
  have hout := listSchools_ok_inv hx hy h
  subst hout
  exact ⟨List.sorted_insertionSort distLE _, filter_insertionSort d _⟩

/-- Witness for C2 on a one-school store: the response list is sorted and
filters like the input list. -/
theorem listSchools_sorted_stable_witness :
    List.Sorted distLE (rankSchools 10 20 [⟨1, "A", "B", 10, 20⟩]) ∧
    (rankSchools 10 20 [⟨1, "A", "B", 10, 20⟩]).filter (fun s => decide (s.distance = 0)) =
      (schoolsWithDistance 10 20 [⟨1, "A", "B", 10, 20⟩]).filter
        (fun s => decide (s.distance = 0)) :=
  listSchools_sorted_stable (.num 10) (.num 20) [⟨1, "A", "B", 10, 20⟩] 10 20 rfl rfl
    1 (rankSchools 10 20 [⟨1, "A", "B", 10, 20⟩]) rfl 0

/-- C7: listing an empty store with any in-range query point succeeds with
count 0 and the empty list. -/
theorem listSchools_empty_store (latQ lonQ : JSValue) (x y : ℚ)
    (hx : latQ.parseFloat = some x) (hy : lonQ.parseFloat = some y)
    (hx1 : -90 ≤ x) (hx2 : x ≤ 90) (hy1 : -180 ≤ y) (hy2 : y ≤ 180) :
    listSchools latQ lonQ [] = .ok 0 [] := by
  simp only [listSchools, hx, hy]
  rw [if_neg (by push_neg; exact ⟨hx1, hx2, hy1, hy2⟩)]
  rfl

/-- Witness for C7 at the query point (10, 20). -/
theorem listSchools_empty_store_witness :
    listSchools (.num 10) (.num 20) [] = .ok 0 [] :=
  listSchools_empty_store (.num 10) (.num 20) 10 20 rfl rfl
    (by decide) (by decide) (by decide) (by decide)

/-- C8: every record of a ranked listing carries as its distance the
2-decimal rounding of its Haversine distance to the query point: the value
is non-negative, is an integer multiple of 1/100 chosen by the half-up
(equivalently, half-away-from-zero on these non-negative values) convention,
and lies within 1/200 of the exact distance. -/
theorem listSchools_distance_spec (latQ lonQ : JSValue) (store : List School)
    (x y : ℚ) (hx : latQ.parseFloat = some x) (hy : lonQ.parseFloat = some y)
    (c : ℕ) (out : List RankedSchool) (h : listSchools latQ lonQ store = .ok c out)
    (s : RankedSchool) (hs : s ∈ out) :
    s.distance = round2 (calculateDistance x y s.latitude s.longitude) ∧
    0 ≤ s.distance ∧
    s.distance =
      ((⌊100 * calculateDistance x y s.latitude s.longitude + 1 / 2⌋ : ℤ) : ℝ) / 100 ∧
    |calculateDistance x y s.latitude s.longitude - s.distance| ≤ 1 / 200 := by
  rw [listSchools_ok_inv hx hy h] at hs
  unfold rankSchools at hs
  have hs2 : s ∈ schoolsWithDistance x y store :=
    (List.mem_insertionSort distLE).mp hs
  unfold schoolsWithDistance at hs2
  obtain ⟨sc, hsc, heq⟩ := List.mem_map.mp hs2
  subst heq
  simp only [toRanked]
  refine ⟨trivial, ?_, ?_, ?_⟩
  · exact round2_nonneg _ (calculateDistance_nonneg _ _ _ _)
  · exact round2_eq_floor _
  · exact round2_near _

/-- Witness for C8 on a one-school store at the query point equal to the
school coordinates. -/
theorem listSchools_distance_spec_witness :
    0 ≤ (toRanked 10 20 ⟨1, "A", "B", 10, 20⟩).distance :=
  (listSchools_distance_spec (.num 10) (.num 20) [⟨1, "A", "B", 10, 20⟩] 10 20 rfl rfl
    1 (rankSchools 10 20 [⟨1, "A", "B", 10, 20⟩]) rfl
    (toRanked 10 20 ⟨1, "A", "B", 10, 20⟩) (List.mem_singleton_self _)).2.1

/-- C9 counterexample: two invalid queries that violate different rules (an
out-of-range latitude versus an out-of-range longitude) receive the identical
response, a single fixed message; the registration validator distinguishes
the two inputs, so the listing failure does not surface the per-field list of
reasons. -/
theorem listSchools_error_shape_counterexample :
    listSchools (.str "91") (.str "0") [] = listSchools (.str "0") (.str "181") [] ∧
    validateSchoolData ⟨.str "n", .str "a", .str "91", .str "0"⟩ ≠
      validateSchoolData ⟨.str "n", .str "a", .str "0", .str "181"⟩ := by
  constructor
  · have h91 : JSValue.parseFloat (.str "91") = some 91 := by decide
    have h0 : JSValue.parseFloat (.str "0") = some 0 := by decide
    have h181 : JSValue.parseFloat (.str "181") = some 181 := by decide
    simp only [listSchools, h91, h0, h181]
    rw [if_pos (by norm_num), if_pos (by norm_num)]
  · decide

/-- C9 amended: the listing workflow accepts a query exactly when the
registration validator's latitude and longitude rules both pass (same
numeric conversion and same ranges), but an invalid query is surfaced as the
single fixed `invalidCoordMessage`, not as a per-field list of reasons. -/
theorem listSchools_validation_amended (latQ lonQ : JSValue) (store : List School) :
    ((∃ c out, listSchools latQ lonQ store = ListResponse.ok c out) ↔
      (latitudeErrors latQ = [] ∧ longitudeErrors lonQ = [])) ∧
    (listSchools latQ lonQ store = ListResponse.badRequest invalidCoordMessage ↔
      ¬(latitudeErrors latQ = [] ∧ longitudeErrors lonQ = [])) := by
  rcases hlat : latQ.parseFloat with _ | x
  · have hl : ¬latitudeErrors latQ = [] := by
      rw [latitudeErrors_nil_iff]
      rintro ⟨x, hx, -, -⟩
      rw [hlat] at hx
      exact Option.noConfusion hx
    constructor
    · refine iff_of_false ?_ (fun hc => hl hc.1)
      rintro ⟨c, out, hok⟩
      simp only [listSchools, hlat] at hok
      exact absurd hok (by simp)
    · refine iff_of_true ?_ (fun hc => hl hc.1)
      simp only [listSchools, hlat]
  · rcases hlon : lonQ.parseFloat with _ | y
    · have hl : ¬longitudeErrors lonQ = [] := by
        rw [longitudeErrors_nil_iff]
        rintro ⟨y, hy, -, -⟩
        rw [hlon] at hy
        exact Option.noConfusion hy
      constructor
      · refine iff_of_false ?_ (fun hc => hl hc.2)
        rintro ⟨c, out, hok⟩
        simp only [listSchools, hlat, hlon] at hok
        exact absurd hok (by simp)
      · refine iff_of_true ?_ (fun hc => hl hc.2)
        simp only [listSchools, hlat, hlon]
    · by_cases hcond : x < -90 ∨ x > 90 ∨ y < -180 ∨ y > 180
      · have hnot : ¬(latitudeErrors latQ = [] ∧ longitudeErrors lonQ = []) := by
          rintro ⟨h1, h2⟩
          obtain ⟨x', hx', hx1, hx2⟩ := (latitudeErrors_nil_iff latQ).mp h1
          obtain ⟨y', hy', hy1, hy2⟩ := (longitudeErrors_nil_iff lonQ).mp h2
          rw [hlat, Option.some_inj] at hx'
          rw [hlon, Option.some_inj] at hy'
          subst hx'
          subst hy'
          rcases hcond with h | h | h | h <;> linarith
        constructor
        · refine iff_of_false ?_ hnot
          rintro ⟨c, out, hok⟩
          simp only [listSchools, hlat, hlon] at hok
          rw [if_pos hcond] at hok
          exact absurd hok (by simp)
        · refine iff_of_true ?_ hnot
          simp only [listSchools, hlat, hlon]
          rw [if_pos hcond]
      · push_neg at hcond
        have hacc : latitudeErrors latQ = [] ∧ longitudeErrors lonQ = [] :=
          ⟨(latitudeErrors_nil_iff latQ).mpr ⟨x, hlat, hcond.1, hcond.2.1⟩,
            (longitudeErrors_nil_iff lonQ).mpr ⟨y, hlon, hcond.2.2.1, hcond.2.2.2⟩⟩
        constructor
        · refine iff_of_true ?_ hacc
          refine ⟨(rankSchools x y store).length, rankSchools x y store, ?_⟩
          simp only [listSchools, hlat, hlon]
          rw [if_neg (by push_neg; exact hcond)]
        · refine iff_of_false ?_ (fun hc => hc hacc)
          intro habs
          simp only [listSchools, hlat, hlon] at habs
          rw [if_neg (by push_neg; exact hcond)] at habs
          exact absurd habs (by simp)

end SchoolApi
